import Mathlib

/-!
Shallow embedding of the zone-sharding setup logic of
`setup_atlas_zones.py` (class `AtlasZoneShardingManager`), together with
proofs about zone-to-shard planning, failure classification, routing-range
installation, placement and cleanup.

Administrative commands issued to the cluster are modelled as oracles:
functions from the command's arguments to `Except String Unit`, where
`Except.error msg` models a raised exception whose string rendering is
`msg`.  Line numbers in doc comments refer to `setup_atlas_zones.py`.
-/

namespace ZoneSharding

/-- Python substring containment `sub in s` as used on error messages. -/
def containsSub (s sub : String) : Bool := decide (sub.data <:+: s.data)

/-- Python `str.lower()` on the ASCII messages involved here. -/
def lowerStr (s : String) : String := String.mk (s.data.map Char.toLower)

/-- Truth value of an `Except` result succeeding. -/
def isOkB {ε α : Type} (r : Except ε α) : Bool :=
  match r with
  | .ok _ => true
  | .error _ => false

/-- Lines 51 and 169: `[s for s in actual_shards if s != "config"]`. -/
def filterConfig (actual_shards : List String) : List String :=
  actual_shards.filter (fun s => s != "config")

/-- Lines 57 and 174: `shard_names[idx] if idx < len(shard_names) else
shard_names[-1]`; `none` models the `IndexError` raised by
`shard_names[-1]` on an empty list. -/
def assignShard (shard_names : List String) (idx : Nat) : Option String :=
  if idx < shard_names.length then shard_names[idx]? else shard_names.getLast?

/-- Zone-to-shard planning step (lines 53-57 and 172-174): each zone name,
in declaration order, paired with its assigned shard. -/
def planZones (shard_names : List String) (zone_names : List String) :
    List (String × Option String) :=
  zone_names.enum.map (fun p => (p.2, assignShard shard_names p.1))

/-- One entry of `config.ZONES` (a Python dict, so zone names are unique
and iteration order is declaration order).  The field `database_name`
holds the entry's `database_prefix` value. -/
structure ZoneConfig where
  name : String
  countries : List String
  database_name : String
deriving DecidableEq

/-- Per-zone outcome of the associate-shard-with-zone command. -/
inductive AssocOutcome where
  | added
  | alreadySatisfied
  | failed (reason : String)
deriving DecidableEq

/-- Lines 67-72: classification of a failed `addShardToZone` command by
its lowercased message text. -/
def classifyAddShardError (msg : String) : AssocOutcome :=
  if containsSub (lowerStr msg) "already" || containsSub (lowerStr msg) "duplicate" then
    AssocOutcome.alreadySatisfied
  else
    AssocOutcome.failed msg

/-- Lines 53-76: the per-zone loop body of `create_zones`.  The argument
`idx` is the running `enumerate` index; the value `none` models the
`IndexError` from `shard_names[-1]` propagating to the handler at line 80,
after which `create_zones` returns `False`. -/
def create_zones_go (addCmd : String → String → Except String Unit)
    (shard_names : List String) (idx : Nat) (zone_names : List String) :
    Option (List (String × AssocOutcome)) :=
  match zone_names with
  | [] => some []
  | z :: zs =>
    match assignShard shard_names idx with
    | none => none
    | some actual_shard =>
      let outcome :=
        match addCmd actual_shard z with
        | .ok _ => AssocOutcome.added
        | .error e => classifyAddShardError e
      (create_zones_go addCmd shard_names (idx + 1) zs).map
        (fun rest => (z, outcome) :: rest)

/-- Lines 45-82: `create_zones`, returning the per-zone outcomes, or
`none` when the filtered shard list is empty and indexing raises. -/
def create_zones (addCmd : String → String → Except String Unit)
    (actual_shards : List String) (zone_names : List String) :
    Option (List (String × AssocOutcome)) :=
  create_zones_go addCmd (filterConfig actual_shards) 0 zone_names

/-- BSON values occurring in the zone range bounds: strings and MaxKey. -/
inductive BVal where
  | str (s : String)
  | maxKey
deriving DecidableEq

/-- BSON comparison restricted to the values above: strings compare
lexicographically and MaxKey compares greater than every string. -/
def bvalLt : BVal → BVal → Bool
  | .str a, .str b => decide (a.data < b.data)
  | .str _, .maxKey => true
  | .maxKey, _ => false

/-- An `updateZoneKeyRange` command document. -/
structure ZoneKeyRange where
  ns : String
  min : List (String × BVal)
  max : List (String × BVal)
  zone : String
deriving DecidableEq

/-- Lines 117-122: the `updateZoneKeyRange` document built for one country
of a zone. -/
def rangeFor (database_name collection_name zone_name country : String) : ZoneKeyRange :=
  { ns := database_name ++ "." ++ collection_name
  , min := [("country", BVal.str country), ("region", BVal.str "")]
  , max := [("country", BVal.str country), ("region", BVal.maxKey)]
  , zone := zone_name }

/-- Lines 114-123: the `for country in countries` loop, which sits inside
the single `try` of lines 108-126.  A failing `updateZoneKeyRange` raises
into the handler at line 124, so the remaining countries of the zone are
skipped; the list returned is the ranges actually installed. -/
def installRanges (upd : ZoneKeyRange → Except String Unit)
    (database_name collection_name zone_name : String) :
    List String → List ZoneKeyRange
  | [] => []
  | c :: rest =>
    match upd (rangeFor database_name collection_name zone_name c) with
    | .ok _ =>
        rangeFor database_name collection_name zone_name c ::
          installRanges upd database_name collection_name zone_name rest
    | .error _ => []

/-- Oracles for the administrative command channel. -/
structure AdminChannel where
  addShardToZone : String → String → Except String Unit
  enableSharding : String → Except String Unit
  movePrimary : String → String → Except String Unit
  shardCollection : String → Except String Unit
  updateZoneKeyRange : ZoneKeyRange → Except String Unit

/-- Lines 97-134: `shard_collection`, returning the reported success flag
and the ranges actually installed.  The caller always passes a zone name
present in `config.ZONES`, whose `countries` list is passed explicitly
here (the source re-reads it from the config dict at line 110). -/
def shard_collection (ch : AdminChannel)
    (database_name collection_name zone_name : String) (countries : List String) :
    Bool × List ZoneKeyRange :=
  match ch.shardCollection (database_name ++ "." ++ collection_name) with
  | .ok _ =>
      (true, installRanges ch.updateZoneKeyRange database_name collection_name zone_name countries)
  | .error e => (containsSub (lowerStr e) "already sharded", [])

/-- Lines 84-95: `enable_sharding_for_database`, treating an
already-enabled message as success. -/
def enable_sharding_for_database (ch : AdminChannel) (database_name : String) : Bool :=
  match ch.enableSharding database_name with
  | .ok _ => true
  | .error e => containsSub (lowerStr e) "already enabled"

/-- Lines 136-147: `move_database_primary`; every failure is a failure. -/
def move_database_primary (ch : AdminChannel) (database_name shard_name : String) : Bool :=
  isOkB (ch.movePrimary database_name shard_name)

/-- Outcome of placement for a single zone in lines 176-191. -/
inductive PlaceOutcome where
  | enableFailed
  | moveFailed
  | placed (collections : List (String × Bool × List ZoneKeyRange))
deriving DecidableEq

/-- Line 178: `zone_shards.get(zone_name, shard_names[0])`.  Zone names
are dict keys, so the lookup always finds the value stored at the zone's
index by lines 172-174. -/
def zone_primary (actual_shards : List String) (idx : Nat) : String :=
  (assignShard (filterConfig actual_shards) idx).getD ((filterConfig actual_shards).getD 0 "")

/-- Lines 176-191, body for one zone: enable sharding, move the primary,
then shard each tenant collection; `continue` skips the remaining steps of
this zone on a failed step. -/
def place_zone (ch : AdminChannel) (primary_shard : String)
    (collections : List String) (z : ZoneConfig) : PlaceOutcome :=
  if enable_sharding_for_database ch z.database_name = false then
    PlaceOutcome.enableFailed
  else if move_database_primary ch z.database_name primary_shard = false then
    PlaceOutcome.moveFailed
  else
    PlaceOutcome.placed
      (collections.map (fun coll =>
        (coll, shard_collection ch z.database_name coll z.name z.countries)))

/-- Lines 176-191: the placement loop over all zones. -/
def place_all (ch : AdminChannel) (actual_shards : List String)
    (collections : List String) (zones : List ZoneConfig) :
    List (String × PlaceOutcome) :=
  zones.enum.map (fun p =>
    (p.2.name, place_zone ch (zone_primary actual_shards p.1) collections p.2))

/-- Lines 34-43: `get_shard_list` returns the listed shard identifiers,
and the empty list when the `listShards` command raises. -/
def get_shard_list (res : Except String (List String)) : List String :=
  match res with
  | .ok shards => shards
  | .error _ => []

/-- Result of the end-to-end setup in lines 149-194. -/
inductive SetupOutcome where
  | noShards
  | tooFewShards
  | createZonesFailed
  | completed (placements : List (String × PlaceOutcome))
deriving DecidableEq

/-- Lines 149-194: `setup_atlas_zone_sharding`. -/
def setup_atlas_zone_sharding (ch : AdminChannel)
    (listShardsRes : Except String (List String))
    (collections : List String) (zones : List ZoneConfig) : SetupOutcome :=
  let shards := get_shard_list listShardsRes
  if shards.isEmpty then SetupOutcome.noShards
  else if shards.length < 2 then SetupOutcome.tooFewShards
  else
    match create_zones ch.addShardToZone shards (zones.map ZoneConfig.name) with
    | none => SetupOutcome.createZonesFailed
    | some _ => SetupOutcome.completed (place_all ch shards collections zones)

/-- Lines 60-65 applied along a plan: `addShardToZone` inserts each planned
pair into the cluster's association relation (adding an existing
association is the no-op classified at line 69). -/
def applyCreateZones (st : Finset (String × String))
    (assocs : List (String × String)) : Finset (String × String) :=
  assocs.foldl (fun s p => insert p s) st

/-- Lines 245-260 of `cleanup_zones`: `removeShardFromZone` erases every
pair built from the static config ("not in zone" is a no-op);
`removeZone` (lines 262-272) deletes only the zone marker and leaves the
shard-zone association relation unchanged. -/
def applyCleanupZones (st : Finset (String × String))
    (staticAssocs : List (String × String)) : Finset (String × String) :=
  staticAssocs.foldl (fun s p => s.erase p) st

/-- Shard-zone pairs associated by a plan (lines 62-65). -/
def planAssocs (shard_names zone_names : List String) : List (String × String) :=
  (planZones shard_names zone_names).filterMap (fun p => p.2.map (fun s => (s, p.1)))

/-- Classified outcome of the iteration of the `create_zones` loop that
handles the zone at position `idx` (lines 60-72). -/
def zoneAddOutcome (addCmd : String → String → Except String Unit)
    (shard_names : List String) (idx : Nat) (z : String) : AssocOutcome :=
  match addCmd ((assignShard shard_names idx).getD "") z with
  | .ok _ => AssocOutcome.added
  | .error e => classifyAddShardError e

/-- Channel on which every administrative command succeeds. -/
def okChannel : AdminChannel :=
  { addShardToZone := fun _ _ => Except.ok ()
  , enableSharding := fun _ => Except.ok ()
  , movePrimary := fun _ _ => Except.ok ()
  , shardCollection := fun _ => Except.ok ()
  , updateZoneKeyRange := fun _ => Except.ok () }

/-- Channel on which moving a database primary always fails. -/
def moveFailChannel : AdminChannel :=
  { okChannel with movePrimary := fun _ _ => Except.error "network timeout" }

/-- Channel on which enabling sharding reports it is already enabled. -/
def enableBusyChannel : AdminChannel :=
  { okChannel with
      enableSharding := fun _ => Except.error "sharding already enabled for database" }

/-- Oracle whose associate command always reports an existing
association. -/
def addAlreadyCmd : String → String → Except String Unit :=
  fun _ _ => Except.error "shard already in zone"

/-- Oracle that rejects the zone range for country "CN" and accepts every
other range. -/
def updRejectCN : ZoneKeyRange → Except String Unit := fun r =>
  if r.min = [("country", BVal.str "CN"), ("region", BVal.str "")] then
    Except.error "zone range rejected"
  else Except.ok ()

/-- Channel on which only the "CN" zone range install fails. -/
def rejectCNChannel : AdminChannel :=
  { okChannel with updateZoneKeyRange := updRejectCN }

/-- The `config.ZONES` entry for region1. -/
def region1cfg : ZoneConfig := ⟨"region1", ["CN", "TR"], "app_region1"⟩

/-- The `config.ZONES` entry for region2. -/
def region2cfg : ZoneConfig := ⟨"region2", ["AE", "US", "EU", "GB"], "app_region2"⟩

lemma planZones_getElem? (shard_names zone_names : List String) (i : Nat)
    (hi : i < zone_names.length) :
    (planZones shard_names zone_names)[i]? =
      some (zone_names.getD i "", assignShard shard_names i) := by
  simp [planZones, List.getElem?_enum, List.getElem?_eq_getElem hi]

/-- C1: when the candidate shard list holds at least as many (distinct)
shards as there are zones, the planning step assigns every zone, in
declaration order, the shard at the zone's own index in the shard list,
and distinct zones receive distinct shards. -/
theorem plan_positional_when_enough_shards (shard_names zone_names : List String)
    (hnd : shard_names.Nodup) (hlen : zone_names.length ≤ shard_names.length) :
    (∀ i, i < zone_names.length →
      (planZones shard_names zone_names)[i]? =
        some (zone_names.getD i "", some (shard_names.getD i ""))) ∧
    (∀ i j, i < zone_names.length → j < zone_names.length → i ≠ j →
      assignShard shard_names i ≠ assignShard shard_names j) := by
  constructor
  · intro i hi
    have hs : i < shard_names.length := lt_of_lt_of_le hi hlen
    rw [planZones_getElem? _ _ i hi, assignShard, if_pos hs,
      List.getElem?_eq_getElem hs]
    simp [List.getElem?_eq_getElem hs]
  · intro i j hi hj hne heq
    have hsi : i < shard_names.length := lt_of_lt_of_le hi hlen
    have hsj : j < shard_names.length := lt_of_lt_of_le hj hlen
    rw [assignShard, assignShard, if_pos hsi, if_pos hsj,
      List.getElem?_eq_getElem hsi, List.getElem?_eq_getElem hsj] at heq
    exact hne ((hnd.getElem_inj_iff).mp (Option.some.inj heq))

/-- Witness for C1 at the concrete inputs of the end-to-end scenario. -/
theorem plan_positional_when_enough_shards_witness :
    (planZones ["shardA", "shardB"] ["region1", "region2"])[1]? =
      some ("region2", some "shardB") := by
  have h := plan_positional_when_enough_shards ["shardA", "shardB"]
    ["region1", "region2"] (by decide) (by decide)
  simpa using h.1 1 (by decide)

/-- C2: with a non-empty candidate shard list shorter than the zone list,
every zone whose index is beyond the shard count is assigned the last
shard, and planning the same inputs again yields the same mapping. -/
theorem plan_overflow_last_shard (shard_names zone_names : List String)
    (hne : shard_names ≠ []) (hlen : shard_names.length < zone_names.length) :
    (∀ i, shard_names.length ≤ i → i < zone_names.length →
      (planZones shard_names zone_names)[i]? =
        some (zone_names.getD i "", some (shard_names.getLastD ""))) ∧
    (∀ s z, s = shard_names → z = zone_names →
      planZones s z = planZones shard_names zone_names) := by
  constructor
  · intro i hge hi
    rw [planZones_getElem? _ _ i hi, assignShard, if_neg (by omega)]
    obtain ⟨a, ha⟩ : ∃ a, shard_names.getLast? = some a := by
      cases h : shard_names.getLast? with
      | none => exact absurd (List.getLast?_eq_none_iff.mp h) hne
      | some a => exact ⟨a, rfl⟩
    simp [ha, List.getLastD_eq_getLast?]
  · intro s z hs hz
    rw [hs, hz]

/-- Witness for C2: a single shard, two zones; the second zone gets the
last (only) shard, and re-planning gives the same mapping. -/
theorem plan_overflow_last_shard_witness :
    (planZones ["shardA"] ["region1", "region2"])[1]? =
      some ("region2", some "shardA") ∧
    planZones ["shardA"] ["region1", "region2"] =
      planZones ["shardA"] ["region1", "region2"] := by
  have h := plan_overflow_last_shard ["shardA"] ["region1", "region2"]
    (by decide) (by decide)
  exact ⟨by simpa using h.1 1 (by decide) (by decide), h.2 _ _ rfl rfl⟩

lemma mem_filterConfig {s : String} {actual_shards : List String}
    (h : s ∈ filterConfig actual_shards) : s ≠ "config" := by
  have := List.of_mem_filter h
  simpa using this

lemma assignShard_mem {shard_names : List String} {idx : Nat} {s : String}
    (h : assignShard shard_names idx = some s) : s ∈ shard_names := by
  rw [assignShard] at h
  by_cases hc : idx < shard_names.length
  · rw [if_pos hc] at h
    exact List.getElem?_mem h
  · rw [if_neg hc] at h
    exact List.mem_of_getLast?_eq_some h

/-- C10: no zone is ever assigned the shard named "config": the zone
creation assignment (lines 51-57) and the primary-shard choice of the
placement step (lines 169-178) both draw from the filtered list. -/
theorem config_shard_never_assigned (actual_shards : List String) (idx : Nat) :
    (assignShard (filterConfig actual_shards) idx).all (fun s => s != "config") = true ∧
    (zone_primary actual_shards idx != "config") = true := by
  have hall : (assignShard (filterConfig actual_shards) idx).all
      (fun s => s != "config") = true := by
    cases h : assignShard (filterConfig actual_shards) idx with
    | none => rfl
    | some s =>
      have : s ≠ "config" := mem_filterConfig (assignShard_mem h)
      simpa [Option.all] using this
  refine ⟨hall, ?_⟩
  rw [zone_primary]
  cases h : assignShard (filterConfig actual_shards) idx with
  | some s =>
    have : s ≠ "config" := mem_filterConfig (assignShard_mem h)
    simpa using this
  | none =>
    cases hl : filterConfig actual_shards with
    | nil => simp [hl]
    | cons a rest =>
      have : a ≠ "config" := mem_filterConfig (by rw [hl]; exact List.mem_cons_self a rest)
      simpa [hl] using this

lemma create_zones_go_getElem? (addCmd : String → String → Except String Unit)
    (shard_names : List String) :
    ∀ (zs : List String) (idx : Nat) (outs : List (String × AssocOutcome)),
      create_zones_go addCmd shard_names idx zs = some outs →
      outs.length = zs.length ∧
      ∀ k, k < zs.length →
        outs[k]? =
          some (zs.getD k "", zoneAddOutcome addCmd shard_names (idx + k) (zs.getD k "")) := by
  intro zs
  induction zs with
  | nil =>
    intro idx outs h
    simp only [create_zones_go, Option.some.injEq] at h
    subst h
    exact ⟨rfl, by intro k hk; cases hk⟩
  | cons z rest ih =>
    intro idx outs h
    simp only [create_zones_go] at h
    cases ha : assignShard shard_names idx with
    | none => rw [ha] at h; cases h
    | some actual_shard =>
      rw [ha] at h
      cases hrest : create_zones_go addCmd shard_names (idx + 1) rest with
      | none => rw [hrest] at h; cases h
      | some outsRest =>
        rw [hrest] at h
        simp only [Option.map_some', Option.some.injEq] at h
        obtain ⟨hlen, hidx⟩ := ih (idx + 1) outsRest hrest
        subst h
        refine ⟨by simp [hlen], ?_⟩
        intro k hk
        cases k with
        | zero =>
          simp [zoneAddOutcome, ha]
        | succ k =>
          have hk' : k < rest.length := by simpa using hk
          have := hidx k hk'
          simpa [Nat.add_assoc, Nat.add_comm 1 k] using this

/-- C3: in `create_zones`, a failed associate-shard-with-zone command whose
message mentions an existing association is recorded as the
already-satisfied no-op, any other failure is recorded as a failure for
that zone alone, and every configured zone receives an outcome (the loop
never aborts on a failure). -/
theorem create_zones_failure_classification
    (addCmd : String → String → Except String Unit)
    (actual_shards zone_names : List String) (outs : List (String × AssocOutcome))
    (h : create_zones addCmd actual_shards zone_names = some outs) :
    outs.length = zone_names.length ∧
    (∀ i, i < zone_names.length →
      (outs.getD i ("", AssocOutcome.added)).1 = zone_names.getD i "") ∧
    (∀ i e, i < zone_names.length →
      addCmd ((assignShard (filterConfig actual_shards) i).getD "")
          (zone_names.getD i "") = Except.error e →
      ((containsSub (lowerStr e) "already" = true ∨
          containsSub (lowerStr e) "duplicate" = true) →
        outs.getD i ("", AssocOutcome.added) =
          (zone_names.getD i "", AssocOutcome.alreadySatisfied)) ∧
      (containsSub (lowerStr e) "already" = false →
          containsSub (lowerStr e) "duplicate" = false →
        outs.getD i ("", AssocOutcome.added) =
          (zone_names.getD i "", AssocOutcome.failed e))) := by
  obtain ⟨hlen, hidx⟩ := create_zones_go_getElem? addCmd (filterConfig actual_shards)
    zone_names 0 outs h
  refine ⟨hlen, ?_, ?_⟩
  · intro i hi
    have := hidx i hi
    simp only [Nat.zero_add] at this
    simp [List.getD_eq_getElem?_getD, this]
  · intro i e hi herr
    have := hidx i hi
    simp only [Nat.zero_add] at this
    simp only [zoneAddOutcome, herr] at this
    constructor
    · intro hmatch
      have hcls : classifyAddShardError e = AssocOutcome.alreadySatisfied := by
        rw [classifyAddShardError, if_pos]
        rcases hmatch with hm | hm <;> simp [hm]
      rw [hcls] at this
      simp [List.getD_eq_getElem?_getD, this]
    · intro hm1 hm2
      have hcls : classifyAddShardError e = AssocOutcome.failed e := by
        rw [classifyAddShardError, if_neg]
        simp [hm1, hm2]
      rw [hcls] at this
      simp [List.getD_eq_getElem?_getD, this]

/-- Witness for C3: the associate command reports an existing association
and the outcome is the already-satisfied no-op. -/
theorem create_zones_failure_classification_witness :
    ([("region1", AssocOutcome.alreadySatisfied)].getD 0 ("", AssocOutcome.added)) =
      ("region1", AssocOutcome.alreadySatisfied) := by
  have h := create_zones_failure_classification addAlreadyCmd ["shardA", "shardB"]
    ["region1"] [("region1", AssocOutcome.alreadySatisfied)] (by decide)
  exact (h.2.2 0 "shard already in zone" (by decide) rfl).1 (Or.inl (by decide))

lemma installRanges_eq_takeWhile (upd : ZoneKeyRange → Except String Unit)
    (database_name collection_name zone_name : String) (countries : List String) :
    installRanges upd database_name collection_name zone_name countries =
      (countries.takeWhile (fun c =>
        isOkB (upd (rangeFor database_name collection_name zone_name c)))).map
        (rangeFor database_name collection_name zone_name) := by
  induction countries with
  | nil => rfl
  | cons c rest ih =>
    rw [installRanges, List.takeWhile_cons]
    cases h : upd (rangeFor database_name collection_name zone_name c) with
    | ok _ => simp [h, isOkB, ih]
    | error e => simp [h, isOkB]

/-- C4 counterexample: with the range install failing for country "CN",
no range at all is installed for the zone, so the range for the remaining
country "TR" is skipped even though its own install command would
succeed. -/
theorem install_ranges_not_independent :
    installRanges updRejectCN "app_region1" "orders" "region1" ["CN", "TR"] =
      ([] : List ZoneKeyRange) ∧
    updRejectCN (rangeFor "app_region1" "orders" "region1" "TR") = Except.ok () := by
  exact ⟨by decide, rfl⟩

/-- C4 amended: range installation for a zone stops at the first failing
tenant identifier, so the installed ranges are exactly the longest prefix
of the zone's countries whose installs succeed; the failure is non-fatal,
as the collection-sharding step still reports success. -/
theorem install_ranges_abort_on_first_failure (ch : AdminChannel)
    (database_name collection_name zone_name : String) (countries : List String) :
    installRanges ch.updateZoneKeyRange database_name collection_name zone_name countries =
      (countries.takeWhile (fun c =>
        isOkB (ch.updateZoneKeyRange
          (rangeFor database_name collection_name zone_name c)))).map
        (rangeFor database_name collection_name zone_name) ∧
    (isOkB (ch.shardCollection (database_name ++ "." ++ collection_name)) = true →
      shard_collection ch database_name collection_name zone_name countries =
        (true,
          installRanges ch.updateZoneKeyRange database_name collection_name zone_name
            countries)) := by
  refine ⟨installRanges_eq_takeWhile _ _ _ _ _, ?_⟩
  intro hok
  rw [shard_collection]
  cases h : ch.shardCollection (database_name ++ "." ++ collection_name) with
  | ok _ => rfl
  | error e => rw [h] at hok; simp [isOkB] at hok

/-- Witness for C4's amended statement at the concrete failing oracle. -/
theorem install_ranges_abort_on_first_failure_witness :
    shard_collection rejectCNChannel "app_region1" "orders" "region1" ["CN", "TR"] =
      (true, installRanges rejectCNChannel.updateZoneKeyRange "app_region1" "orders"
        "region1" ["CN", "TR"]) := by
  exact (install_ranges_abort_on_first_failure rejectCNChannel "app_region1" "orders"
    "region1" ["CN", "TR"]).2 rfl

lemma takeWhile_of_all {p : String → Bool} {l : List String}
    (h : ∀ a ∈ l, p a = true) : l.takeWhile p = l := by
  induction l with
  | nil => rfl
  | cons a rest ih =>
    rw [List.takeWhile_cons, if_pos (h a (List.mem_cons_self a rest))]
    rw [ih (fun b hb => h b (List.mem_cons_of_mem a hb))]

/-- C6: for every country in the zone's tenant set, the installed routing
range has lower bound country plus empty region, upper bound country plus
the MaxKey sentinel (which compares greater than every string value), and
is bound to the zone's name. -/
theorem routing_range_bounds (ch : AdminChannel)
    (database_name collection_name zone_name country : String) (countries : List String)
    (hc : country ∈ countries)
    (hok : ∀ r, isOkB (ch.updateZoneKeyRange r) = true) :
    rangeFor database_name collection_name zone_name country ∈
      installRanges ch.updateZoneKeyRange database_name collection_name zone_name
        countries ∧
    (rangeFor database_name collection_name zone_name country).min =
      [("country", BVal.str country), ("region", BVal.str "")] ∧
    (rangeFor database_name collection_name zone_name country).max =
      [("country", BVal.str country), ("region", BVal.maxKey)] ∧
    (rangeFor database_name collection_name zone_name country).zone = zone_name ∧
    (∀ s : String, bvalLt (BVal.str s) BVal.maxKey = true) := by
  refine ⟨?_, rfl, rfl, rfl, fun s => rfl⟩
  rw [installRanges_eq_takeWhile, takeWhile_of_all (fun a _ => hok _)]
  exact List.mem_map_of_mem _ hc

/-- Witness for C6 at the region1 configuration. -/
theorem routing_range_bounds_witness :
    rangeFor "app_region1" "orders" "region1" "CN" ∈
      installRanges okChannel.updateZoneKeyRange "app_region1" "orders" "region1"
        ["CN", "TR"] := by
  exact (routing_range_bounds okChannel "app_region1" "orders" "region1" "CN"
    ["CN", "TR"] (by decide) (fun r => rfl)).1

/-- C5 counterexample: with a single-shard inventory and every
administrative command succeeding, the end-to-end setup refuses to run,
returning the too-few-shards failure instead of placing the two zones. -/
theorem single_shard_setup_rejected :
    setup_atlas_zone_sharding okChannel (Except.ok ["shardA"])
      ["orders", "transactions", "logs"] [region1cfg, region2cfg] =
      SetupOutcome.tooFewShards := by
  rfl

/-- C5 amended: a single-shard inventory is rejected by the end-to-end
setup before planning or placement, whatever the channel, collections and
zones are, because at least two shards are required; the planning step in
isolation does map both zones to the single shard. -/
theorem single_shard_overflow_behaviour (ch : AdminChannel)
    (collections : List String) (zones : List ZoneConfig) :
    setup_atlas_zone_sharding ch (Except.ok ["shardA"]) collections zones =
      SetupOutcome.tooFewShards ∧
    planZones ["shardA"] ["region1", "region2"] =
      [("region1", some "shardA"), ("region2", some "shardA")] := by
  exact ⟨rfl, by decide⟩

/-- C7: a failure message saying sharding is already enabled makes the
enable step report success; a failed primary move gives the zone the
move-failed outcome, so none of its collections are sharded, while the
placement loop still emits an outcome for every configured zone. -/
theorem placement_move_failure_blocks_zone_only (ch : AdminChannel)
    (actual_shards collections : List String) (zones : List ZoneConfig) :
    (∀ e database_name, ch.enableSharding database_name = Except.error e →
      containsSub (lowerStr e) "already enabled" = true →
      enable_sharding_for_database ch database_name = true) ∧
    (∀ primary_shard z, enable_sharding_for_database ch z.database_name = true →
      isOkB (ch.movePrimary z.database_name primary_shard) = false →
      place_zone ch primary_shard collections z = PlaceOutcome.moveFailed) ∧
    (place_all ch actual_shards collections zones).map Prod.fst =
      zones.map ZoneConfig.name := by
  refine ⟨?_, ?_, ?_⟩
  · intro e database_name herr hmsg
    simp only [enable_sharding_for_database, herr]
    exact hmsg
  · intro primary_shard z hen hmv
    rw [place_zone, if_neg (by simp [hen]), if_pos]
    rw [move_database_primary, hmv]
  · rw [place_all, List.map_map]
    have : (Prod.fst ∘ fun p : Nat × ZoneConfig =>
        (p.2.name, place_zone ch (zone_primary actual_shards p.1) collections p.2)) =
        ZoneConfig.name ∘ Prod.snd := rfl
    rw [this, ← List.map_map, List.enum, List.enumFrom_map_snd]

/-- Witness for C7: an already-enabled message is a success, and a failed
primary move yields the move-failed outcome at a concrete zone. -/
theorem placement_move_failure_blocks_zone_only_witness :
    enable_sharding_for_database enableBusyChannel "app_region1" = true ∧
    place_zone moveFailChannel "shardA" ["orders"] region1cfg =
      PlaceOutcome.moveFailed := by
  constructor
  · exact (placement_move_failure_blocks_zone_only enableBusyChannel [] [] []).1
      "sharding already enabled for database" "app_region1" rfl (by decide)
  · exact (placement_move_failure_blocks_zone_only moveFailChannel [] ["orders"] []).2.1
      "shardA" region1cfg rfl rfl

/-- C8 counterexample: when the cluster cannot be reached, the shard
inventory operation returns the empty list, a normal value that is
indistinguishable from a legitimate zero-shard response, instead of an
error result. -/
theorem shard_list_error_returns_normal_value :
    get_shard_list (Except.error "connection refused") = ([] : List String) ∧
    get_shard_list (Except.error "connection refused") =
      get_shard_list (Except.ok []) := by
  exact ⟨rfl, rfl⟩

/-- C8 amended: `get_shard_list` returns the empty list, a normal value,
both when the cluster cannot be reached and when it reports zero shards;
the caller `setup_atlas_zone_sharding` treats the empty list as fatal and
aborts the run with the no-shards failure. -/
theorem shard_list_empty_sentinel (e : String) (ch : AdminChannel)
    (collections : List String) (zones : List ZoneConfig) :
    get_shard_list (Except.error e) = [] ∧
    get_shard_list (Except.ok []) = [] ∧
    setup_atlas_zone_sharding ch (Except.error e) collections zones =
      SetupOutcome.noShards ∧
    setup_atlas_zone_sharding ch (Except.ok []) collections zones =
      SetupOutcome.noShards := by
  exact ⟨rfl, rfl, rfl, rfl⟩

lemma mem_applyCreateZones (x : String × String) (assocs : List (String × String))
    (st : Finset (String × String)) :
    x ∈ applyCreateZones st assocs ↔ x ∈ st ∨ x ∈ assocs := by
  induction assocs generalizing st with
  | nil => simp [applyCreateZones]
  | cons a as ih =>
    have hstep : applyCreateZones st (a :: as) = applyCreateZones (insert a st) as := rfl
    rw [hstep, ih]
    simp [Finset.mem_insert]
    tauto

lemma mem_applyCleanupZones (x : String × String) (staticAssocs : List (String × String))
    (st : Finset (String × String)) :
    x ∈ applyCleanupZones st staticAssocs ↔ x ∈ st ∧ x ∉ staticAssocs := by
  induction staticAssocs generalizing st with
  | nil => simp [applyCleanupZones]
  | cons a as ih =>
    have hstep : applyCleanupZones st (a :: as) = applyCleanupZones (st.erase a) as := rfl
    rw [hstep, ih]
    simp [Finset.mem_erase]
    tauto

/-- C9: for every plan, reconciling, tearing down with the static cleanup
pairs, and reconciling again leaves the cluster's shard-zone association
state equal to the state after a single reconciliation. -/
theorem reconcile_remove_reconcile (shard_names zone_names : List String)
    (staticAssocs : List (String × String)) :
    applyCreateZones
        (applyCleanupZones
          (applyCreateZones ∅ (planAssocs shard_names zone_names)) staticAssocs)
        (planAssocs shard_names zone_names) =
      applyCreateZones ∅ (planAssocs shard_names zone_names) := by
  ext x
  simp only [mem_applyCreateZones, mem_applyCleanupZones, Finset.not_mem_empty]
  tauto

end ZoneSharding
